import Mathlib

/-!
Shallow embedding of `src/app/screens/LNURLPay.tsx` (LNURL-pay screen of a
browser extension).  The component's `confirm()` flow is modelled as a pure
function from an environment (the resolutions of its asynchronous calls and
the user's dialog answers) and the session state to a new state together
with a trace of observable effects.  Amounts are modelled as rationals,
matching JavaScript's numeric arithmetic on the exact values involved
(multiplication and division by 1000).
-/

/-- The `details` prop: LNURL-pay request parameters fetched from the
service (`minSendable`/`maxSendable` in millisatoshi, the invoice
callback URL, the service domain, and the raw metadata string). -/
structure Details where
  minSendable : Rat
  maxSendable : Rat
  callback : String
  domain : String
  metadata : String
  deriving DecidableEq, Repr

/-- A `successAction` object of the callback response: a tagged variant
with the fields the screen reads (`description`, `url`, `message`) and the
fields of the aes variant it never reads (`ciphertext`, `iv`). -/
structure SuccessAction where
  tag : String
  description : String
  url : String
  message : String
  ciphertext : String
  iv : String
  deriving DecidableEq, Repr

/-- The callback response body used by the screen: `pr` (the encoded
payment request) and the optional `successAction`. -/
structure Invoice where
  pr : String
  successAction : Option SuccessAction
  deriving DecidableEq, Repr

/-- Modelled from the spec: the wallet call boundary
`pay(paymentRequest, origin) -> { preimage } | { error }` — the wallet
capability behind `utils.call("lnurlPay", ...)` lives in
`src/common/lib/utils`, which is not part of the sources here; the spec
fixes its resolved value to carry either a preimage or a payment error. -/
inductive PaymentResult
  | success (preimage : String)
  | failure (error : String)
  deriving DecidableEq, Repr

/-- The `payment_error` field the screen reads off the resolved wallet
result (absent on the success variant). -/
def PaymentResult.payment_error : PaymentResult → Option String
  | .success _ => none
  | .failure e => some e

/-- Observable effects of one session, in program order. -/
inductive Event
  | fetchInvoice (callback : String) (amount : Rat)
  | walletPay (paymentRequest : String)
  | alertMsg (text : String)
  | confirmPrompt (text : String)
  | openUrl (url : String)
  | notify (title : String) (message : String)
  | decryptAttempt (ciphertext : String)
  | closeWindow
  | msgError (text : String)
  | preventDefault
  deriving DecidableEq, Repr

/-- Resolutions of the flow's asynchronous calls and user dialog answers:
`fetchResult` is how `axios.get(details.callback, ...)` settles (a thrown
transport error or a response body), `verifyOk` is the boolean returned by
`lnurl.verifyInvoice`, `payResult` is how the wallet call settles (a
rejection or a resolved `PaymentResult`), and `userConfirms` is the answer
to `window.confirm`. -/
structure Env where
  fetchResult : Except String Invoice
  verifyOk : Bool
  payResult : Except String PaymentResult
  userConfirms : Bool
  deriving Repr

/-- Session state owned by the component: the request details, the
`valueMSat` amount state, and the `loading` flag. -/
structure SessionState where
  details : Details
  valueMSat : Rat
  loading : Bool
  deriving DecidableEq, Repr

/-- The `switch (successAction.tag)` dispatch inside `confirm()`.  In the
source, `case "aes"` has no body and falls through to `default`, so every
tag other than `"url"` and `"message"` reaches the same alert, whose text
ends in the tag itself. -/
def handleSuccessAction (env : Env) (sa : SuccessAction) : List Event :=
  if sa.tag = "url" then
    [Event.alertMsg sa.description,
     Event.confirmPrompt
       (sa.description ++ " Do you want to open: " ++ sa.url ++ "?")] ++
    (if env.userConfirms then [Event.openUrl sa.url] else [])
  else if sa.tag = "message" then
    [Event.notify "LNURL response:" sa.message]
  else
    [Event.alertMsg
      ("Not implemented yet. Please submit an issue to support success action: "
        ++ sa.tag)]

/-- The guard `if (successAction && !payment.payment_error)` around the
success-action dispatch: the handler's events when a success action is
present and the resolved wallet result carries no `payment_error`,
otherwise nothing. -/
def successActionEvents (env : Env) (inv : Invoice)
    (payment : PaymentResult) : List Event :=
  match inv.successAction with
  | some sa =>
      if payment.payment_error = none then handleSuccessAction env sa else []
  | none => []

/-- The part of `confirm()` after the synchronous `setLoading(true)`:
fetch the invoice, verify it, pay it, run the success action, close the
window; any thrown error is caught and alerted; `finally` clears the
loading flag. -/
def confirmRest (env : Env) (s : SessionState) : SessionState × List Event :=
  let fetchEv := Event.fetchInvoice s.details.callback s.valueMSat
  let done := { s with loading := false }
  match env.fetchResult with
  | Except.error e =>
      (done, [fetchEv, Event.alertMsg ("Error: " ++ e)])
  | Except.ok inv =>
      if env.verifyOk = false then
        (done, [fetchEv, Event.alertMsg "Payment aborted. Invalid invoice"])
      else
        match env.payResult with
        | Except.error e =>
            (done, [fetchEv, Event.walletPay inv.pr,
                    Event.alertMsg ("Error: " ++ e)])
        | Except.ok payment =>
            (done, [fetchEv, Event.walletPay inv.pr]
                     ++ successActionEvents env inv payment
                     ++ [Event.closeWindow])

/-- The whole of `confirm()`: `setLoading(true)` synchronously, then the
asynchronous remainder. -/
def confirm (env : Env) (s : SessionState) : SessionState × List Event :=
  confirmRest env { s with loading := true }

/-- The `reject` click handler: `e.preventDefault()` then
`msg.error("User rejected")`. -/
def reject : List Event :=
  [Event.preventDefault, Event.msgError "User rejected"]

/-- The number input's change handler in `renderAmount`:
`setValueMSat(e.target.value * 1000)` with the typed satoshi value. -/
def numberInputChange (typedSat : Rat) (s : SessionState) : SessionState :=
  { s with valueMSat := typedSat * 1000 }

/-- The range input's change handler in `renderAmount`:
`setValueMSat(e.target.value)` with the slider's millisatoshi value. -/
def rangeInputChange (v : Rat) (s : SessionState) : SessionState :=
  { s with valueMSat := v }

/-- The satoshi value rendered by both `renderAmount` branches:
`valueMSat / 1000`. -/
def displayedSat (s : SessionState) : Rat :=
  s.valueMSat / 1000

/-- An edit to either amount representation: the number field (satoshi)
or the range slider (millisatoshi). -/
inductive AmountEdit
  | satField (typedSat : Rat)
  | msatSlider (v : Rat)
  deriving DecidableEq, Repr

/-- Apply one edit to the session state. -/
def applyEdit (s : SessionState) : AmountEdit → SessionState
  | .satField q => numberInputChange q s
  | .msatSlider v => rangeInputChange v s

/-- Apply a sequence of edits left to right. -/
def applyEdits (s : SessionState) (es : List AmountEdit) : SessionState :=
  es.foldl applyEdit s

/-- Modelled from the spec: the Confirm button
(`src/app/components/Button`, not among the sources here) receives the
`loading` flag and, per the spec's single in-flight-submission guard, a
click while `loading` is set is ignored rather than starting another
`confirm()`. -/
def pressConfirmStart (s : SessionState) : Option SessionState :=
  if s.loading then none else some { s with loading := true }

/-- Two confirm clicks in rapid succession: the first click starts
`confirm()` (which sets `loading` synchronously before its first await);
the second click arrives while the first run's asynchronous calls are
pending and is ignored when the loading guard is up; afterwards the first
run's remainder completes. -/
def doubleClick (env : Env) (s : SessionState) : SessionState × List Event :=
  match pressConfirmStart s with
  | none => (s, [])
  | some s1 =>
      match pressConfirmStart s1 with
      | none => confirmRest env s1
      | some s2 =>
          let r1 := confirmRest env s2
          let r2 := confirm env r1.1
          (r2.1, r1.2 ++ r2.2)

/-- Does an event issue the invoice-callback request? -/
def Event.isFetch : Event → Bool
  | .fetchInvoice _ _ => true
  | _ => false

/-- Does an event invoke the wallet pay capability? -/
def Event.isPay : Event → Bool
  | .walletPay _ => true
  | _ => false

/-- Does an event show an alert? -/
def Event.isAlert : Event → Bool
  | .alertMsg _ => true
  | _ => false

/-- Does an event close the presenting surface? -/
def Event.isClose : Event → Bool
  | .closeWindow => true
  | _ => false

/-- Does an event belong to success-action handling (dialogs, opening a
url, a notification, or a decryption attempt)? -/
def Event.isSuccessActionKind : Event → Bool
  | .confirmPrompt _ => true
  | .openUrl _ => true
  | .notify _ _ => true
  | .decryptAttempt _ => true
  | _ => false

/-- Number of invoice-callback requests in a trace. -/
def countFetch (t : List Event) : Nat := t.countP Event.isFetch

/-- Number of wallet pay calls in a trace. -/
def countPay (t : List Event) : Nat := t.countP Event.isPay

/-- Number of alerts in a trace. -/
def countAlert (t : List Event) : Nat := t.countP Event.isAlert

/-- Number of surface-close effects in a trace. -/
def countClose (t : List Event) : Nat := t.countP Event.isClose

/-- The reason `confirm()` aborts via an alert, when it does: a thrown
fetch error, a failed verification, or a rejected wallet call. -/
def abortAlert (env : Env) : Option String :=
  match env.fetchResult with
  | Except.error e => some ("Error: " ++ e)
  | Except.ok _ =>
      if env.verifyOk = false then some "Payment aborted. Invalid invoice"
      else
        match env.payResult with
        | Except.error e => some ("Error: " ++ e)
        | Except.ok _ => none

/-- Did the flow reach a resolved wallet payment result? -/
def paymentResolved (env : Env) : Bool :=
  match env.fetchResult with
  | Except.error _ => false
  | Except.ok _ =>
      env.verifyOk &&
        match env.payResult with
        | Except.error _ => false
        | Except.ok _ => true

/-- Sample request details: bounds 1000/100000 millisatoshi, as in the
spec's end-to-end scenario B. -/
def sampleDetails : Details :=
  { minSendable := 1000
    maxSendable := 100000
    callback := "https://pay.example/callback"
    domain := "pay.example"
    metadata := "sample-metadata" }

/-- Sample session state: amount 5000 millisatoshi, not loading. -/
def sampleState : SessionState :=
  { details := sampleDetails, valueMSat := 5000, loading := false }

/-- Sample invoice without a success action. -/
def plainInvoice : Invoice :=
  { pr := "lnbc-sample", successAction := none }

/-- Environment where the callback responds but verification fails. -/
def envBadInvoice : Env :=
  { fetchResult := Except.ok plainInvoice
    verifyOk := false
    payResult := Except.ok (PaymentResult.success "preimage1")
    userConfirms := false }

/-- Environment where everything resolves and the wallet succeeds. -/
def envAllGood : Env :=
  { fetchResult := Except.ok plainInvoice
    verifyOk := true
    payResult := Except.ok (PaymentResult.success "preimage1")
    userConfirms := false }

/-- Environment where the wallet result resolves carrying a
`payment_error`. -/
def envPayFailed : Env :=
  { fetchResult := Except.ok plainInvoice
    verifyOk := true
    payResult := Except.ok (PaymentResult.failure "no route found")
    userConfirms := false }

/-- Environment where the invoice fetch itself throws. -/
def envFetchThrows : Env :=
  { fetchResult := Except.error "Network Error"
    verifyOk := true
    payResult := Except.ok (PaymentResult.success "preimage1")
    userConfirms := false }

/-- Sample aes success action. -/
def aesAction : SuccessAction :=
  { tag := "aes", description := "secret", url := "", message := ""
    ciphertext := "0123abcd", iv := "feedbeef" }

/-- Sample url success action. -/
def urlAction : SuccessAction :=
  { tag := "url", description := "Thanks for your order"
    url := "https://shop.example/receipt", message := ""
    ciphertext := "", iv := "" }

/-- Environment where everything resolves, the wallet succeeds, and the
user affirms the url dialog. -/
def envUserAffirms : Env :=
  { fetchResult := Except.ok { pr := "lnbc-sample"
                               successAction := some urlAction }
    verifyOk := true
    payResult := Except.ok (PaymentResult.success "preimage1")
    userConfirms := true }

/-- Environment where the wallet result resolves carrying a
`payment_error` although the invoice offers a url success action. -/
def envPayFailedWithAction : Env :=
  { fetchResult := Except.ok { pr := "lnbc-sample"
                               successAction := some urlAction }
    verifyOk := true
    payResult := Except.ok (PaymentResult.failure "no route found")
    userConfirms := true }

/-- The success-action dispatch issues no callback request, no wallet
call, and no surface close, whatever the tag and the user's answer. -/
theorem handleSuccessAction_no_calls (env : Env) (sa : SuccessAction) :
    countFetch (handleSuccessAction env sa) = 0 ∧
    countPay (handleSuccessAction env sa) = 0 ∧
    countClose (handleSuccessAction env sa) = 0 := by
  by_cases h1 : sa.tag = "url"
  · by_cases h2 : env.userConfirms <;>
      simp [handleSuccessAction, h1, h2, countFetch, countPay, countClose,
        List.countP_cons, List.countP_nil, Event.isFetch, Event.isPay,
        Event.isClose]
  · by_cases h2 : sa.tag = "message" <;>
      simp [handleSuccessAction, h1, h2, countFetch, countPay, countClose,
        List.countP_cons, List.countP_nil, Event.isFetch, Event.isPay,
        Event.isClose]

/-- The guarded success-action segment issues no callback request, no
wallet call, and no surface close. -/
theorem successActionEvents_no_calls (env : Env) (inv : Invoice)
    (payment : PaymentResult) :
    countFetch (successActionEvents env inv payment) = 0 ∧
    countPay (successActionEvents env inv payment) = 0 ∧
    countClose (successActionEvents env inv payment) = 0 := by
  cases hsa : inv.successAction with
  | none => simp [successActionEvents, hsa, countFetch, countPay, countClose]
  | some sa =>
      by_cases hpe : payment.payment_error = none
      · simpa [successActionEvents, hsa, hpe] using
          handleSuccessAction_no_calls env sa
      · simp [successActionEvents, hsa, hpe, countFetch, countPay, countClose]

/-- C1: in every `confirm()` run in which invoice verification fails, the
flow aborts before any payment attempt — the trace is exactly the invoice
fetch followed by the failure alert, so the wallet pay capability is never
invoked, no success action is attempted, and the failure is surfaced. -/
theorem c1_verify_failure_aborts_before_payment
    (env : Env) (s : SessionState) (inv : Invoice)
    (hf : env.fetchResult = Except.ok inv) (hv : env.verifyOk = false) :
    (confirm env s).2 =
      [Event.fetchInvoice s.details.callback s.valueMSat,
       Event.alertMsg "Payment aborted. Invalid invoice"] ∧
    countPay (confirm env s).2 = 0 ∧
    (confirm env s).2.countP Event.isSuccessActionKind = 0 := by
  have h : (confirm env s).2 =
      [Event.fetchInvoice s.details.callback s.valueMSat,
       Event.alertMsg "Payment aborted. Invalid invoice"] := by
    simp [confirm, confirmRest, hf, hv]
  refine ⟨h, ?_, ?_⟩ <;>
    simp [h, countPay, List.countP_cons, List.countP_nil, Event.isPay,
      Event.isSuccessActionKind]

/-- C1 witness: the concrete failing-verification environment. -/
theorem c1_verify_failure_aborts_before_payment_witness :
    (confirm envBadInvoice sampleState).2 =
      [Event.fetchInvoice sampleState.details.callback sampleState.valueMSat,
       Event.alertMsg "Payment aborted. Invalid invoice"] ∧
    countPay (confirm envBadInvoice sampleState).2 = 0 ∧
    (confirm envBadInvoice sampleState).2.countP Event.isSuccessActionKind
      = 0 :=
  c1_verify_failure_aborts_before_payment envBadInvoice sampleState
    plainInvoice rfl rfl

/-- C2: with the guard down, two confirm clicks in rapid succession run the
submission once — the double-click trace equals a single `confirm()` trace,
and when the fetch resolves and verification passes it contains exactly one
invoice fetch and exactly one wallet payment call. -/
theorem c2_double_click_single_submission
    (env : Env) (s : SessionState) (inv : Invoice)
    (hl : s.loading = false)
    (hf : env.fetchResult = Except.ok inv) (hv : env.verifyOk = true) :
    (doubleClick env s).2 = (confirm env s).2 ∧
    countFetch (doubleClick env s).2 = 1 ∧
    countPay (doubleClick env s).2 = 1 := by
  have hd : (doubleClick env s).2 = (confirm env s).2 := by
    simp [doubleClick, pressConfirmStart, hl, confirm]
  refine ⟨hd, ?_, ?_⟩ <;> rw [hd] <;>
    cases hp : env.payResult with
    | error e =>
        simp [confirm, confirmRest, hf, hv, hp, countFetch, countPay,
          List.countP_cons, List.countP_nil, Event.isFetch, Event.isPay]
    | ok payment =>
        have hsa := successActionEvents_no_calls env inv payment
        have h1 : List.countP Event.isFetch
            (successActionEvents env inv payment) = 0 := hsa.1
        have h2 : List.countP Event.isPay
            (successActionEvents env inv payment) = 0 := hsa.2.1
        have ht : (confirm env s).2 =
            [Event.fetchInvoice s.details.callback s.valueMSat,
             Event.walletPay inv.pr]
              ++ successActionEvents env inv payment
              ++ [Event.closeWindow] := by
          simp [confirm, confirmRest, hf, hv, hp]
        rw [ht]
        simp [countFetch, countPay, List.countP_append, List.countP_cons,
          List.countP_nil, Event.isFetch, Event.isPay, h1, h2]

/-- C2 witness: the concrete all-resolving environment. -/
theorem c2_double_click_single_submission_witness :
    (doubleClick envAllGood sampleState).2 =
      (confirm envAllGood sampleState).2 ∧
    countFetch (doubleClick envAllGood sampleState).2 = 1 ∧
    countPay (doubleClick envAllGood sampleState).2 = 1 :=
  c2_double_click_single_submission envAllGood sampleState plainInvoice
    rfl rfl rfl

/-- C3 counterexample: a run whose wallet call resolves carrying
`payment_error` produces no alert at all — the error result is silently
swallowed (the trace is just fetch, pay, close), refuting the claim that a
wallet error result is always surfaced. -/
theorem c3_payment_error_swallowed_counterexample :
    envPayFailed.payResult =
      Except.ok (PaymentResult.failure "no route found") ∧
    (confirm envPayFailed sampleState).2 =
      [Event.fetchInvoice sampleState.details.callback sampleState.valueMSat,
       Event.walletPay plainInvoice.pr, Event.closeWindow] ∧
    countAlert (confirm envPayFailed sampleState).2 = 0 :=
  ⟨rfl, rfl, rfl⟩

/-- C3 amended: every abort path of `confirm()` — a thrown fetch error, a
failed verification, or a rejected wallet call — surfaces its reason via an
alert; but a wallet result that resolves carrying `payment_error` is not
surfaced (it only suppresses the success action). -/
theorem c3_abort_paths_alert_their_reason
    (env : Env) (s : SessionState) (r : String)
    (h : abortAlert env = some r) :
    Event.alertMsg r ∈ (confirm env s).2 := by
  cases hf : env.fetchResult with
  | error e =>
      simp only [abortAlert, hf, Option.some.injEq] at h
      subst h
      simp [confirm, confirmRest, hf]
  | ok inv =>
      cases hv : env.verifyOk with
      | false =>
          simp [abortAlert, hf, hv] at h
          subst h
          simp [confirm, confirmRest, hf, hv]
      | true =>
          cases hp : env.payResult with
          | error e =>
              simp [abortAlert, hf, hv, hp] at h
              subst h
              simp [confirm, confirmRest, hf, hv, hp]
          | ok payment =>
              simp [abortAlert, hf, hv, hp] at h

/-- C3 amended witness: the thrown-fetch-error environment alerts. -/
theorem c3_abort_paths_alert_their_reason_witness :
    Event.alertMsg "Error: Network Error"
      ∈ (confirm envFetchThrows sampleState).2 :=
  c3_abort_paths_alert_their_reason envFetchThrows sampleState
    "Error: Network Error" rfl

/-- C4 counterexample: the failed-verification run reaches a terminal
failure (the abort alert is shown) yet never closes the presenting
surface, refuting the claim that every terminal outcome closes it exactly
once. -/
theorem c4_failed_terminal_without_close_counterexample :
    Event.alertMsg "Payment aborted. Invalid invoice"
      ∈ (confirm envBadInvoice sampleState).2 ∧
    countClose (confirm envBadInvoice sampleState).2 = 0 := by
  constructor
  · simp [confirm, confirmRest, envBadInvoice, sampleState]
  · rfl

/-- C4 amended: the presenting surface is closed exactly once when the
wallet payment call resolves (whether or not it carries `payment_error`),
and never on the failure paths — a thrown fetch error, a failed
verification, or a rejected wallet call leave the surface open; `reject()`
itself closes nothing and only reports through the messaging boundary. -/
theorem c4_close_iff_payment_resolved (env : Env) (s : SessionState) :
    countClose (confirm env s).2 = (if paymentResolved env then 1 else 0) ∧
    countClose reject = 0 := by
  refine ⟨?_, rfl⟩
  cases hf : env.fetchResult with
  | error e =>
      simp [confirm, confirmRest, paymentResolved, hf, countClose,
        List.countP_cons, List.countP_nil, Event.isClose]
  | ok inv =>
      cases hv : env.verifyOk with
      | false =>
          simp [confirm, confirmRest, paymentResolved, hf, hv, countClose,
            List.countP_cons, List.countP_nil, Event.isClose]
      | true =>
          cases hp : env.payResult with
          | error e =>
              simp [confirm, confirmRest, paymentResolved, hf, hv, hp,
                countClose, List.countP_cons, List.countP_nil, Event.isClose]
          | ok payment =>
              have h3 : List.countP Event.isClose
                  (successActionEvents env inv payment) = 0 :=
                (successActionEvents_no_calls env inv payment).2.2
              simp [confirm, confirmRest, paymentResolved, hf, hv, hp,
                countClose, List.countP_append, List.countP_cons,
                List.countP_nil, Event.isClose, h3]

/-- C5 counterexample: a number-field edit can put the amount above
`maxSendable` (101 satoshi against a 100000-millisatoshi ceiling), and the
very next `confirm()` issues the invoice request with that out-of-range
amount — nothing clamps or refuses it. -/
theorem c5_out_of_range_amount_issued_counterexample :
    (confirm envAllGood (numberInputChange 101 sampleState)).2.head? =
      some (Event.fetchInvoice sampleDetails.callback (101 * 1000)) ∧
    sampleDetails.maxSendable < 101 * 1000 := by
  constructor
  · rfl
  · norm_num [sampleDetails]

/-- C5 amended: `confirm()` always issues the invoice request first, and
with exactly the session's current `valueMSat` — verbatim, with no range
check against `minSendable`/`maxSendable`, no clamping and no refusal. -/
theorem c5_amount_sent_verbatim (env : Env) (s : SessionState) :
    (confirm env s).2.head? =
      some (Event.fetchInvoice s.details.callback s.valueMSat) := by
  cases hf : env.fetchResult with
  | error e => simp [confirm, confirmRest, hf]
  | ok inv =>
      cases hv : env.verifyOk with
      | false => simp [confirm, confirmRest, hf, hv]
      | true =>
          cases hp : env.payResult with
          | error e => simp [confirm, confirmRest, hf, hv, hp]
          | ok payment => simp [confirm, confirmRest, hf, hv, hp]

/-- C6: on tag "aes" and on every tag other than "url" and "message",
the success-action dispatch performs no decryption and produces exactly
one explicit not-implemented alert whose text names the tag. -/
theorem c6_aes_and_unknown_tags_unsupported (env : Env) (sa : SuccessAction)
    (h : sa.tag = "aes" ∨ (sa.tag ≠ "url" ∧ sa.tag ≠ "message")) :
    handleSuccessAction env sa =
      [Event.alertMsg
        ("Not implemented yet. Please submit an issue to support success action: "
          ++ sa.tag)] ∧
    (∀ c, Event.decryptAttempt c ∉ handleSuccessAction env sa) := by
  have h1 : ¬ sa.tag = "url" := by
    rcases h with h | h
    · rw [h]; decide
    · exact h.1
  have h2 : ¬ sa.tag = "message" := by
    rcases h with h | h
    · rw [h]; decide
    · exact h.2
  have he : handleSuccessAction env sa =
      [Event.alertMsg
        ("Not implemented yet. Please submit an issue to support success action: "
          ++ sa.tag)] := by
    simp [handleSuccessAction, h1, h2]
  refine ⟨he, ?_⟩
  intro c
  rw [he]
  simp

/-- C6 witness: the concrete aes action. -/
theorem c6_aes_and_unknown_tags_unsupported_witness :
    handleSuccessAction envAllGood aesAction =
      [Event.alertMsg
        ("Not implemented yet. Please submit an issue to support success action: "
          ++ aesAction.tag)] ∧
    (∀ c, Event.decryptAttempt c ∉ handleSuccessAction envAllGood aesAction) :=
  c6_aes_and_unknown_tags_unsupported envAllGood aesAction (Or.inl rfl)

/-- C7: after any sequence of edits to either amount field, the rendered
satoshi value times 1000 equals the stored millisatoshi value; a satoshi
edit round-trips exactly through the stored millisatoshi, and a slider
edit round-trips exactly through the rendered satoshi — conversion is an
exact multiply/divide by 1000 with no drift. -/
theorem c7_sat_msat_representations_consistent
    (s : SessionState) (es : List AmountEdit) :
    displayedSat (applyEdits s es) * 1000 = (applyEdits s es).valueMSat ∧
    (∀ q, displayedSat (numberInputChange q (applyEdits s es)) = q) ∧
    (∀ v, displayedSat (rangeInputChange v (applyEdits s es)) * 1000 = v) := by
  refine ⟨?_, ?_, ?_⟩
  · rw [displayedSat]
    exact div_mul_cancel₀ _ (by norm_num)
  · intro q
    rw [displayedSat, numberInputChange]
    exact mul_div_cancel_right₀ q (by norm_num)
  · intro v
    rw [displayedSat, rangeInputChange]
    exact div_mul_cancel₀ v (by norm_num)

/-- C8: success-action handling is gated on the resolved wallet result —
when it carries a `payment_error` the trace is exactly fetch, pay, close
and the handler is skipped entirely; handler events appear only when the
result is the success variant (no error, preimage present), and then only
after the wallet call. -/
theorem c8_success_action_gated_on_success
    (env : Env) (s : SessionState) (inv : Invoice)
    (hf : env.fetchResult = Except.ok inv) (hv : env.verifyOk = true) :
    (∀ e, env.payResult = Except.ok (PaymentResult.failure e) →
      (confirm env s).2 =
        [Event.fetchInvoice s.details.callback s.valueMSat,
         Event.walletPay inv.pr, Event.closeWindow]) ∧
    (∀ p, env.payResult = Except.ok (PaymentResult.success p) →
      (confirm env s).2 =
        [Event.fetchInvoice s.details.callback s.valueMSat,
         Event.walletPay inv.pr]
          ++ (match inv.successAction with
              | some sa => handleSuccessAction env sa
              | none => []) ++ [Event.closeWindow]) := by
  constructor
  · intro e hp
    cases hsa : inv.successAction with
    | none =>
        simp [confirm, confirmRest, successActionEvents, hf, hv, hp, hsa]
    | some sa =>
        simp [confirm, confirmRest, successActionEvents, hf, hv, hp, hsa,
          PaymentResult.payment_error]
  · intro p hp
    cases hsa : inv.successAction with
    | none =>
        simp [confirm, confirmRest, successActionEvents, hf, hv, hp, hsa]
    | some sa =>
        simp [confirm, confirmRest, successActionEvents, hf, hv, hp, hsa,
          PaymentResult.payment_error]

/-- C8 witness: the failing-wallet environment skips the handler even
though a success action is present. -/
theorem c8_success_action_gated_on_success_witness :
    (confirm envPayFailedWithAction sampleState).2 =
      [Event.fetchInvoice sampleState.details.callback sampleState.valueMSat,
       Event.walletPay "lnbc-sample", Event.closeWindow] :=
  (c8_success_action_gated_on_success envPayFailedWithAction sampleState
      { pr := "lnbc-sample", successAction := some urlAction } rfl rfl).1
    "no route found" rfl

/-- C9: on tag "url" the handler shows the description, then a
confirmation dialog whose text contains both the description and the url;
the url is opened exactly when the user affirms — never automatically,
and never when the user declines. -/
theorem c9_url_action_opens_only_if_affirmed (env : Env) (sa : SuccessAction)
    (h : sa.tag = "url") :
    handleSuccessAction env sa =
      [Event.alertMsg sa.description,
       Event.confirmPrompt
         (sa.description ++ " Do you want to open: " ++ sa.url ++ "?")]
        ++ (if env.userConfirms then [Event.openUrl sa.url] else []) ∧
    (∃ a b, sa.description ++ " Do you want to open: " ++ sa.url ++ "?"
        = a ++ sa.url ++ b ∧ a = sa.description ++ " Do you want to open: ") ∧
    (env.userConfirms = true →
      Event.openUrl sa.url ∈ handleSuccessAction env sa) ∧
    (env.userConfirms = false →
      ∀ u, Event.openUrl u ∉ handleSuccessAction env sa) := by
  have he : handleSuccessAction env sa =
      [Event.alertMsg sa.description,
       Event.confirmPrompt
         (sa.description ++ " Do you want to open: " ++ sa.url ++ "?")]
        ++ (if env.userConfirms then [Event.openUrl sa.url] else []) := by
    simp [handleSuccessAction, h]
  refine ⟨he, ?_, ?_, ?_⟩
  · exact ⟨sa.description ++ " Do you want to open: ", "?", by simp, rfl⟩
  · intro hu
    rw [he, hu]
    simp
  · intro hu u
    rw [he, hu]
    simp

/-- C9 witness: the concrete url action with an affirming user. -/
theorem c9_url_action_opens_only_if_affirmed_witness :
    handleSuccessAction envUserAffirms urlAction =
      [Event.alertMsg urlAction.description,
       Event.confirmPrompt
         (urlAction.description ++ " Do you want to open: "
           ++ urlAction.url ++ "?")]
        ++ (if envUserAffirms.userConfirms
            then [Event.openUrl urlAction.url] else []) ∧
    (∃ a b, urlAction.description ++ " Do you want to open: "
        ++ urlAction.url ++ "?"
        = a ++ urlAction.url ++ b
        ∧ a = urlAction.description ++ " Do you want to open: ") ∧
    (envUserAffirms.userConfirms = true →
      Event.openUrl urlAction.url
        ∈ handleSuccessAction envUserAffirms urlAction) ∧
    (envUserAffirms.userConfirms = false →
      ∀ u, Event.openUrl u ∉ handleSuccessAction envUserAffirms urlAction) :=
  c9_url_action_opens_only_if_affirmed envUserAffirms urlAction rfl

/-- C10: `reject()` only prevents the default link action and reports the
explicit "User rejected" signal to the invoking context — it issues no
invoice request, no wallet call, and no surface close, and its trace holds
nothing but those two effects. -/
theorem c10_reject_reports_and_does_nothing_else :
    reject = [Event.preventDefault, Event.msgError "User rejected"] ∧
    Event.msgError "User rejected" ∈ reject ∧
    countFetch reject = 0 ∧ countPay reject = 0 ∧ countClose reject = 0 ∧
    ∀ e ∈ reject,
      e = Event.preventDefault ∨ e = Event.msgError "User rejected" := by
  refine ⟨rfl, ?_, rfl, rfl, rfl, ?_⟩
  · simp [reject]
  · intro e he
    simp [reject] at he
    rcases he with he | he
    · exact Or.inl he
    · exact Or.inr he
